import Mathlib

/-!
Verification of the dbt-adapters repository core: the schema-drift
reconciliation engine (exercised by
`src/dbt-athena/tests/functional/adapter/test_on_schema_change.py`) and the
Snowflake adapter (`src/dbt-snowflake/src/dbt/adapters/snowflake/impl.py`),
shallowly embedded in Lean 4.
-/

/-! ## String helpers: substring containment, Python-style strip -/

/-- Boolean list-prefix test, structural recursion. -/
def listIsPre (p l : List Char) : Bool :=
  match p, l with
  | [], _ => true
  | _ :: _, [] => false
  | a :: as, b :: bs => a == b && listIsPre as bs

/-- Boolean substring (contiguous sublist) test over character lists. -/
def listHasSub (pat : List Char) : List Char → Bool
  | [] => listIsPre pat []
  | c :: t => listIsPre pat (c :: t) || listHasSub pat t

/-- `containsSubstr s pat` models Python's `pat in s`. -/
def containsSubstr (s pat : String) : Bool :=
  listHasSub pat.data s.data

theorem listIsPre_append_self (p r : List Char) : listIsPre p (p ++ r) = true := by
  induction p with
  | nil => simp [listIsPre]
  | cons a as ih => simp [listIsPre, ih]

theorem listHasSub_append_self (p r : List Char) : listHasSub p (p ++ r) = true := by
  cases p with
  | nil => cases r <;> simp [listHasSub, listIsPre]
  | cons a as =>
      simp only [List.cons_append, listHasSub, Bool.or_eq_true]
      exact Or.inl (listIsPre_append_self (a :: as) r)

theorem containsSubstr_append_left (pat r : String) :
    containsSubstr (pat ++ r) pat = true := by
  simp only [containsSubstr, String.data_append]
  exact listHasSub_append_self pat.data r.data

/-- Python's `str.upper` on identifiers (ASCII case fold suffices here). -/
def pyUpper (s : String) : String := ⟨s.data.map Char.toUpper⟩

/-- Python's `str.lower` (ASCII case fold suffices here). -/
def pyLower (s : String) : String := ⟨s.data.map Char.toLower⟩

/-! ## Columns and the schema-diff engine

The incremental-model reconciliation engine is exercised by the functional
tests in `src/dbt-athena/tests/functional/adapter/test_on_schema_change.py`
but its implementation lives outside the sampled sources, so it is modelled
from the specification (§4.6 Schema Diff Engine). -/

/-- A column as read from warehouse metadata (spec §3): name and data type
(names are compared after normalization; here they are carried already
normalized). -/
structure Column where
  name : String
  dataType : String
deriving DecidableEq, Repr

/-- The four declared reconciliation policies (spec §3 SchemaChangePolicy). -/
inductive SchemaChangePolicy where
  | Ignore
  | AppendNewColumns
  | SyncAllColumns
  | Fail
deriving DecidableEq, Repr

/-- A dialect-agnostic structural operation (spec glossary): an add-column or
drop-column intent. -/
inductive StructuralOp where
  | addColumn (c : Column)
  | dropColumn (name : String)
deriving DecidableEq, Repr

/-- The transient diff between existing and incoming column sets (spec §3
ColumnDiff; name/type changes are out of scope of detection per §4.6.4). -/
structure ColumnDiff where
  added : List Column
  removed : List Column
deriving DecidableEq, Repr

/-- Outcome of a reconciliation: either a sequence of structural operations to
execute, or a drift error raised before any operation is issued. -/
inductive ReconcileOutcome where
  | ops (l : List StructuralOp)
  | driftError (msg : String)
deriving DecidableEq, Repr

/-- Does `cols` contain a column of (normalized) name `n`? -/
def hasColumnNamed (cols : List Column) (n : String) : Bool :=
  cols.any (fun c => c.name == n)

/-- Modelled from the spec: §4.6 steps 1-3 — `added` is incoming columns whose
name is absent from existing, `removed` is existing columns whose name is
absent from incoming, both in declaration order. -/
def diffColumns (existing incoming : List Column) : ColumnDiff :=
  { added := incoming.filter (fun c => !(hasColumnNamed existing c.name))
    removed := existing.filter (fun c => !(hasColumnNamed incoming c.name)) }

/-- The drift phrase the functional test keys on
(`test_on_schema_change.py` line 99). -/
def outOfSyncPhrase : String :=
  "The source and target schemas on this incremental model are out of sync!"

/-- Modelled from the spec: the SchemaDriftError message names the kind of
drift and carries the drifted column names (spec §6/§7). -/
def outOfSyncMessage (d : ColumnDiff) : String :=
  outOfSyncPhrase ++
    (" Added: " ++ String.intercalate ", " (d.added.map Column.name)
      ++ ". Removed: " ++ String.intercalate ", " (d.removed.map Column.name))

/-- Modelled from the spec: §4.6 step 5 — the Schema Diff Engine's policy
dispatch. The engine issues no SQL itself; it returns the required structural
operations (or a drift error, before any operation is issued). -/
def reconcile (existing incoming : List Column) (policy : SchemaChangePolicy) :
    ColumnDiff × ReconcileOutcome :=
  let d := diffColumns existing incoming
  match policy with
  | .Ignore => (d, .ops [])
  | .AppendNewColumns => (d, .ops (d.added.map StructuralOp.addColumn))
  | .SyncAllColumns =>
      (d, .ops (d.added.map StructuralOp.addColumn
                ++ d.removed.map (fun c => StructuralOp.dropColumn c.name)))
  | .Fail =>
      if d.added.isEmpty && d.removed.isEmpty then (d, .ops [])
      else (d, .driftError (outOfSyncMessage d))

/-- Effect of one structural operation on the stored column list. -/
def applyStructuralOp (cols : List Column) : StructuralOp → List Column
  | .addColumn c => cols ++ [c]
  | .dropColumn n => cols.filter (fun c => !(c.name == n))

/-- Effect of a sequence of structural operations, applied in order. -/
def applyStructuralOps (cols : List Column) (l : List StructuralOp) : List Column :=
  l.foldl applyStructuralOp cols

/-- Stored columns after a reconciliation outcome: a drift error is raised
before any structural operation, so the stored relation is untouched. -/
def applyOutcome (cols : List Column) : ReconcileOutcome → List Column
  | .ops l => applyStructuralOps cols l
  | .driftError _ => cols

/-- Modelled from the spec: §4.6 step 6 — SQL reserved words that force
quoting of a column identifier (the functional tests exercise `select`). -/
def reservedWords : List String :=
  ["select", "from", "where", "table", "group", "order", "join", "and", "or"]

/-- Modelled from the spec: §4.6 step 6 — a column name requires quoting when
it collides with a reserved word or contains a special character (anything
other than letters, digits and underscore, e.g. a hyphen). -/
def needsQuoting (n : String) : Bool :=
  reservedWords.contains n || n.data.any (fun c => !(c.isAlphanum || c == '_'))

/-- Modelled from the spec: §4.6 step 6 — render a column identifier for a
structural statement, quoting it whenever it requires quoting. -/
def renderColumnIdentifier (n : String) : String :=
  if needsQuoting n then "\"" ++ n ++ "\"" else n

/-- Modelled from the spec: render one structural operation as dialect-agnostic
statement text (the execution collaborator turns it into engine SQL). -/
def renderStructuralOp : StructuralOp → String
  | .addColumn c => "add column " ++ renderColumnIdentifier c.name ++ " " ++ c.dataType
  | .dropColumn n => "drop column " ++ renderColumnIdentifier n

/-! ## Snowflake adapter: relation kinds and listing-row classification

Embeds `SnowflakeAdapter._parse_list_relations_result`,
`list_relations_without_caching`, `get_columns_in_relation` and the
kind/table-type resolution of `get_catalog_for_single_relation` from
`src/dbt-snowflake/src/dbt/adapters/snowflake/impl.py`. -/

/-- The Snowflake relation-kind enum (`SnowflakeRelationType`; its defining
module is outside the sampled sources, values modelled from the spec §3
kind enum and the strings the adapter compares against). -/
inductive SnowflakeRelationType where
  | Table
  | View
  | CTE
  | External
  | DynamicTable
deriving DecidableEq, Repr

/-- Modelled from the spec: the case-sensitive string value of each relation
kind (`str(...)` of the enum member). -/
def relationTypeValue : SnowflakeRelationType → String
  | .Table => "table"
  | .View => "view"
  | .CTE => "cte"
  | .External => "external"
  | .DynamicTable => "dynamic_table"

/-- Modelled from the spec: `Relation.get_relation_type` — exact lookup of a
kind string among the enum values; `none` models the `ValueError` raised for
an unrecognized string. -/
def get_relation_type (s : String) : Option SnowflakeRelationType :=
  if s == "table" then some .Table
  else if s == "view" then some .View
  else if s == "cte" then some .CTE
  else if s == "external" then some .External
  else if s == "dynamic_table" then some .DynamicTable
  else none

/-- The kind strings `get_relation_type` recognizes. -/
def knownTypeStrings : List String :=
  ["table", "view", "cte", "external", "dynamic_table"]

/-- `constants.ICEBERG_TABLE_FORMAT` (constants module outside the sampled
sources; the exact string is irrelevant to the claims). -/
def ICEBERG_TABLE_FORMAT : String := "iceberg"

/-- `constants.INFO_SCHEMA_TABLE_FORMAT`. -/
def INFO_SCHEMA_TABLE_FORMAT : String := "default"

/-- Per-part quoting flags (`self.config.quoting` and
`quote_policy = {"database": True, "schema": True, "identifier": True}`). -/
structure QuotePolicy where
  database : Bool
  schema : Bool
  identifier : Bool
deriving DecidableEq, Repr

/-- A raw listing row after `list_relations_without_caching` lower-cases the
column labels and selects
`["database_name", "schema_name", "name", "kind", "is_dynamic", "is_iceberg"]`. -/
structure ListingRow where
  database_name : String
  schema_name : String
  name : String
  kind : String
  is_dynamic : String
  is_iceberg : String
deriving DecidableEq, Repr

/-- The normalized relation descriptor produced by `Relation.create`. -/
structure SnowflakeRelation where
  database : String
  schema : String
  identifier : String
  type : SnowflakeRelationType
  table_format : String
  quote_policy : QuotePolicy
deriving DecidableEq, Repr

/-- `SnowflakeAdapter._parse_list_relations_result` (impl.py lines 301-327):
resolve the kind via lowercased lookup with `External` fallback, override
`Table` to `DynamicTable` when `is_dynamic == "Y"`, and tag the table format
from the `is_iceberg` flag. -/
def _parse_list_relations_result (row : ListingRow) : SnowflakeRelation :=
  let relation_type :=
    match get_relation_type (pyLower row.kind) with
    | some t => t
    | none => SnowflakeRelationType.External
  let relation_type :=
    if relation_type == SnowflakeRelationType.Table && row.is_dynamic == "Y" then
      SnowflakeRelationType.DynamicTable
    else relation_type
  let table_format :=
    if row.is_iceberg == "Y" || row.is_iceberg == "YES" then ICEBERG_TABLE_FORMAT
    else INFO_SCHEMA_TABLE_FORMAT
  { database := row.database_name
    schema := row.schema_name
    identifier := row.name
    type := relation_type
    table_format := table_format
    quote_policy := { database := true, schema := true, identifier := true } }

/-- A `DbtDatabaseError` carrying its message text. -/
structure DbtDatabaseError where
  msg : String
deriving DecidableEq, Repr

/-- `SnowflakeAdapter.list_relations_without_caching` (impl.py lines 278-299),
parametrized by the metadata-fetch collaborator's outcome: a database error
whose text carries the Snowflake code `002043 (02000)` ("object does not
exist or is not found") yields an empty listing; any other database error is
re-raised; a successful fetch is classified row by row. -/
def list_relations_without_caching
    (fetch : Except DbtDatabaseError (List ListingRow)) :
    Except DbtDatabaseError (List SnowflakeRelation) :=
  match fetch with
  | .error exc =>
      if containsSubstr exc.msg "002043 (02000)" then .ok []
      else .error exc
  | .ok rows => .ok (rows.map _parse_list_relations_result)

/-- A column as returned by the base `get_columns_in_relation`. -/
structure SnowflakeColumn where
  column : String
  dtype : String
deriving DecidableEq, Repr

/-- `SnowflakeAdapter.get_columns_in_relation` (impl.py lines 191-198),
parametrized by the base-class outcome: a database error whose text contains
`does not exist or not authorized` yields an empty column list; any other
database error is re-raised. -/
def get_columns_in_relation
    (superResult : Except DbtDatabaseError (List SnowflakeColumn)) :
    Except DbtDatabaseError (List SnowflakeColumn) :=
  match superResult with
  | .error exc =>
      if containsSubstr exc.msg "does not exist or not authorized" then .ok []
      else .error exc
  | .ok cols => .ok cols

/-- The kind/table-type resolution of
`SnowflakeAdapter.get_catalog_for_single_relation` (impl.py lines 222-228):
`is_dynamic in ("Y", "YES")` and an upper-cased `table` kind yield the
upper-cased `dynamic_table` type; otherwise the raw kind is kept. -/
def get_catalog_for_single_relation_table_type (is_dynamic kind : String) : String :=
  if (is_dynamic == "Y" || is_dynamic == "YES")
      && kind == pyUpper (relationTypeValue SnowflakeRelationType.Table) then
    pyUpper (relationTypeValue SnowflakeRelationType.DynamicTable)
  else kind

/-! ## Identifier normalizer: `_make_match_kwargs`, `_is_quoted`, `_strip_quotes` -/

/-- `SnowflakeRelation.quote_character` (Snowflake's identifier quote). -/
def quote_character : Char := '"'

/-- `SnowflakeAdapter._is_quoted` (impl.py lines 146-151): non-null and both
starts and ends with the quote character. -/
def _is_quoted (identifier : Option String) : Bool :=
  match identifier with
  | none => false
  | some s =>
      listIsPre [quote_character] s.data && listIsPre [quote_character] s.data.reverse

/-- `SnowflakeAdapter._strip_quotes` (impl.py lines 153-154):
Python's `str.strip('"')`, which removes every leading and every trailing
occurrence of the quote character. -/
def _strip_quotes (s : String) : String :=
  ⟨((s.data.dropWhile (fun c => c == quote_character)).reverse.dropWhile
      (fun c => c == quote_character)).reverse⟩

/-- The keyword dictionary `_make_match_kwargs` returns;
`filter_null_values` drops `none` entries, which an `Option`-valued field
models directly. -/
structure MatchKwargs where
  identifier : Option String
  schema : Option String
  database : Option String
deriving DecidableEq, Repr

/-- `SnowflakeAdapter._make_match_kwargs` (impl.py lines 124-144): each path
part that is already quoted is stripped of its quotes and its casing kept;
otherwise, when quoting for that part is disabled, it is upper-cased; else it
is left unchanged. -/
def _make_match_kwargs (quoting : QuotePolicy)
    (database schema identifier : Option String) : MatchKwargs :=
  let identifier :=
    if _is_quoted identifier then identifier.map _strip_quotes
    else if identifier.isSome && quoting.identifier == false then identifier.map pyUpper
    else identifier
  let schema :=
    if _is_quoted schema then schema.map _strip_quotes
    else if schema.isSome && quoting.schema == false then schema.map pyUpper
    else schema
  let database :=
    if _is_quoted database then database.map _strip_quotes
    else if database.isSome && quoting.database == false then database.map pyUpper
    else database
  { identifier := identifier, schema := schema, database := database }

/-- The Identifier Normalizer exactly as the specification words it (§4.1,
spec-side definition for comparison with `_make_match_kwargs`): quoted →
strip quotes, no folding; else quoting disabled for the part → fold to upper
case; else unchanged. -/
def normalizePartSpec (quoteEnabled : Bool) (part : Option String) : Option String :=
  match part with
  | none => none
  | some s =>
      if listIsPre [quote_character] s.data
          && listIsPre [quote_character] s.data.reverse then
        some (_strip_quotes s)
      else if quoteEnabled == false then some (pyUpper s)
      else some s

/-! ## Catalog integration registry

`add_catalog_integration` / `get_catalog_integration` (impl.py lines 99-109)
override a dbt-core base class that is outside the sampled sources; the base
registry (spec §4.4: store under the integration's name, exact-name lookup)
is modelled from the spec. Python object identity matters here (the claim is
about the caller's object not being mutated), so configs live in an explicit
object heap and are passed by reference. -/

/-- Modelled from the spec: a catalog-integration descriptor (§3
CatalogIntegration / §4.4): a name plus its remaining configuration fields,
represented by a default storage format. -/
structure CatalogIntegrationConfig where
  name : String
  default_storage_format : String
deriving DecidableEq, Repr

/-- Placeholder config for dangling heap references. -/
def emptyCatalogIntegrationConfig : CatalogIntegrationConfig :=
  { name := "", default_storage_format := "" }

/-- Adapter-instance state: an object heap (index = Python object identity)
and the registry mapping integration name to the stored object. -/
structure AdapterState where
  heap : List CatalogIntegrationConfig
  integrations : List (String × Nat)
deriving DecidableEq, Repr

/-- The config object a reference points at. -/
def getCfg (st : AdapterState) (ref : Nat) : CatalogIntegrationConfig :=
  st.heap.getD ref emptyCatalogIntegrationConfig

/-- Python's `deepcopy`: allocate a fresh object with the same field values;
returns the new state and the fresh reference. -/
def deepcopyCfg (st : AdapterState) (ref : Nat) : AdapterState × Nat :=
  ({ st with heap := st.heap ++ [getCfg st ref] }, st.heap.length)

/-- In-place field write `obj.name = n` on the object behind `ref`. -/
def setCfgName (st : AdapterState) (ref : Nat) (n : String) : AdapterState :=
  { st with heap := st.heap.set ref { getCfg st ref with name := n } }

/-- Modelled from the spec: the dbt-core base
`add_catalog_integration` stores the integration in the registry under its
(already-normalized) name (§4.4). -/
def base_add_catalog_integration (st : AdapterState) (ref : Nat) : AdapterState :=
  { st with integrations := ((getCfg st ref).name, ref) :: st.integrations }

/-- Modelled from the spec: the dbt-core base `get_catalog_integration` looks
the name up exactly; `none` models the not-found error (§4.4). -/
def base_get_catalog_integration (st : AdapterState) (name : String) : Option Nat :=
  (st.integrations.find? (fun p => p.1 == name)).map Prod.snd

/-- `SnowflakeAdapter.add_catalog_integration` (impl.py lines 99-105):
deep-copy the config dbt-core passed in (so the caller's object is not
mutated), upper-case the copy's name, and register the copy. Returns the new
state and the reference to the stored copy. -/
def add_catalog_integration (st : AdapterState) (ref : Nat) : AdapterState × Nat :=
  let p := deepcopyCfg st ref
  let st1 := p.1
  let copyRef := p.2
  let st2 := setCfgName st1 copyRef (pyUpper (getCfg st1 copyRef).name)
  (base_add_catalog_integration st2 copyRef, copyRef)

/-- `SnowflakeAdapter.get_catalog_integration` (impl.py lines 107-109):
upper-case the requested name before the base lookup. -/
def get_catalog_integration (st : AdapterState) (name : String) : Option Nat :=
  base_get_catalog_integration st (pyUpper name)

/-! ## Catalog-aware relation builder -/

/-- A model configuration as `build_catalog_relation` consumes it: the
optional declared catalog name plus the rest of the configuration, passed
through verbatim. -/
structure ModelRelationConfig where
  catalog : Option String
  payload : String
deriving DecidableEq, Repr

/-- Modelled from the spec: `parse_model.catalog_name` (module outside the
sampled sources) extracts the per-model declared catalog name, optional
(spec §6 configuration surface). -/
def catalog_name (model : ModelRelationConfig) : Option String :=
  model.catalog

/-- The relation a catalog integration builds. -/
structure CatalogRelation where
  catalog : String
  default_storage_format : String
  payload : String
deriving DecidableEq, Repr

/-- Modelled from the spec: the integration's relation-building capability
(§4.4/§4.5) — build a relation from the model configuration passed through
verbatim. -/
def build_relation (integ : CatalogIntegrationConfig)
    (model : ModelRelationConfig) : CatalogRelation :=
  { catalog := integ.name
    default_storage_format := integ.default_storage_format
    payload := model.payload }

/-- `SnowflakeAdapter.build_catalog_relation` (impl.py lines 483-501):
`if catalog := parse_model.catalog_name(model):` — a missing (or empty, by
Python truthiness) catalog name yields `none` without consulting the
registry; otherwise the named integration is looked up (`.error` models the
registry's not-found error) and relation construction is delegated to it. -/
def build_catalog_relation (st : AdapterState) (model : ModelRelationConfig) :
    Except String (Option CatalogRelation) :=
  match catalog_name model with
  | some catalog =>
      if catalog == "" then .ok none
      else
        match get_catalog_integration st catalog with
        | some ref => .ok (some (build_relation (getCfg st ref) model))
        | none => .error catalog
  | none => .ok none

/-! ## Theorems -/

theorem get_relation_type_eq_none_of_not_known (s : String)
    (h : s ∉ knownTypeStrings) : get_relation_type s = none := by
  simp only [knownTypeStrings, List.mem_cons, List.not_mem_nil, or_false, not_or] at h
  obtain ⟨h1, h2, h3, h4, h5⟩ := h
  simp [get_relation_type, h1, h2, h3, h4, h5]

/-- Claim C3: if the metadata fetch behind `list_relations_without_caching`
fails with a database error carrying Snowflake's not-found code
`002043 (02000)`, or the one behind `get_columns_in_relation` fails with a
`does not exist or not authorized` message, the operation returns an empty
sequence instead of raising; any database error not matching the signature is
re-raised unchanged. -/
theorem not_found_errors_absorbed (exc : DbtDatabaseError) :
    (containsSubstr exc.msg "002043 (02000)" = true →
      list_relations_without_caching (.error exc) = .ok []) ∧
    (containsSubstr exc.msg "002043 (02000)" = false →
      list_relations_without_caching (.error exc) = .error exc) ∧
    (containsSubstr exc.msg "does not exist or not authorized" = true →
      get_columns_in_relation (.error exc) = .ok []) ∧
    (containsSubstr exc.msg "does not exist or not authorized" = false →
      get_columns_in_relation (.error exc) = .error exc) := by
  refine ⟨fun h => ?_, fun h => ?_, fun h => ?_, fun h => ?_⟩ <;>
    simp [list_relations_without_caching, get_columns_in_relation, h]

/-- Concrete instances of `not_found_errors_absorbed`: the Snowflake
not-found code and message are absorbed into empty listings, while an
unrelated database error propagates unchanged. -/
theorem not_found_errors_absorbed_witness :
    list_relations_without_caching
        (.error { msg := "SQL compilation error: 002043 (02000): object not found" })
      = .ok [] ∧
    list_relations_without_caching (.error { msg := "syntax error" })
      = .error { msg := "syntax error" } ∧
    get_columns_in_relation
        (.error { msg := "Object MYTABLE does not exist or not authorized." })
      = .ok [] ∧
    get_columns_in_relation (.error { msg := "syntax error" })
      = .error { msg := "syntax error" } :=
  ⟨(not_found_errors_absorbed
      { msg := "SQL compilation error: 002043 (02000): object not found" }).1 (by decide),
   (not_found_errors_absorbed { msg := "syntax error" }).2.1 (by decide),
   (not_found_errors_absorbed
      { msg := "Object MYTABLE does not exist or not authorized." }).2.2.1 (by decide),
   (not_found_errors_absorbed { msg := "syntax error" }).2.2.2 (by decide)⟩

/-- Claim C4, counterexample: a raw listing row whose kind resolves to
`Table` and whose is-dynamic flag is the truthy value `"YES"` is NOT
overridden to `DynamicTable` by `_parse_list_relations_result` (impl.py line
309 compares the flag against `"Y"` only). -/
theorem listing_dynamic_yes_flag_keeps_table :
    (_parse_list_relations_result
        { database_name := "D", schema_name := "S", name := "T",
          kind := "TABLE", is_dynamic := "YES", is_iceberg := "N" }).type
      = SnowflakeRelationType.Table ∧
    ¬ (_parse_list_relations_result
        { database_name := "D", schema_name := "S", name := "T",
          kind := "TABLE", is_dynamic := "YES", is_iceberg := "N" }).type
      = SnowflakeRelationType.DynamicTable := by
  constructor <;> decide

/-- Claim C4, amended: in `_parse_list_relations_result` the dynamic-table
override applies exactly when the resolved kind is `Table` and the is-dynamic
flag equals `"Y"` (not `"YES"`); in `get_catalog_for_single_relation` the
table type becomes the dynamic-table type exactly when the kind is `TABLE`
and the flag is `"Y"` or `"YES"`; for all other flag values or kinds the
resolved kind is kept. -/
theorem dynamic_table_override_conditions :
    (∀ row : ListingRow,
      ((_parse_list_relations_result row).type = SnowflakeRelationType.DynamicTable ↔
        (get_relation_type (pyLower row.kind) = some SnowflakeRelationType.DynamicTable ∨
          (get_relation_type (pyLower row.kind) = some SnowflakeRelationType.Table ∧
            row.is_dynamic = "Y"))) ∧
      (row.is_dynamic ≠ "Y" →
        (_parse_list_relations_result row).type
          = (get_relation_type (pyLower row.kind)).getD SnowflakeRelationType.External)) ∧
    (∀ is_dynamic kind : String,
      get_catalog_for_single_relation_table_type is_dynamic kind = "DYNAMIC_TABLE" ↔
        ((kind = "TABLE" ∧ (is_dynamic = "Y" ∨ is_dynamic = "YES")) ∨
          kind = "DYNAMIC_TABLE")) := by
  constructor
  · intro row
    rcases h : get_relation_type (pyLower row.kind) with _ | t
    · constructor
      · simp [_parse_list_relations_result, h]
      · intro _
        simp [_parse_list_relations_result, h]
    · by_cases hd : row.is_dynamic = "Y" <;>
        cases t <;>
          simp [_parse_list_relations_result, h, hd]
  · intro is_dynamic kind
    have hT : pyUpper (relationTypeValue SnowflakeRelationType.Table) = "TABLE" := by decide
    have hD : pyUpper (relationTypeValue SnowflakeRelationType.DynamicTable)
        = "DYNAMIC_TABLE" := by decide
    by_cases hk : kind = "TABLE" <;>
      by_cases h1 : is_dynamic = "Y" <;>
        by_cases h2 : is_dynamic = "YES" <;>
          simp [get_catalog_for_single_relation_table_type, hT, hD, hk, h1, h2]

/-- Claim C6: classifying a raw listing row's relation-type string never
raises: known type strings are mapped case-insensitively (lower-casing before
the exact lookup maps the upper-cased form of every known value back to its
kind), and every unrecognized type string yields the `External` kind. -/
theorem unknown_relation_kind_yields_external (row : ListingRow) :
    (pyLower row.kind ∉ knownTypeStrings →
      (_parse_list_relations_result row).type = SnowflakeRelationType.External) ∧
    (∀ t : SnowflakeRelationType,
      get_relation_type (pyLower (pyUpper (relationTypeValue t))) = some t) := by
  constructor
  · intro h
    have hn := get_relation_type_eq_none_of_not_known _ h
    simp [_parse_list_relations_result, hn]
  · intro t
    cases t <;> decide

/-- Concrete instance of `unknown_relation_kind_yields_external`: the
unrecognized kind string `MATERIALIZED VIEW` classifies to `External`, and
the upper-cased known string `TABLE` maps to `Table`. -/
theorem unknown_relation_kind_yields_external_witness :
    (_parse_list_relations_result
        { database_name := "D", schema_name := "S", name := "T",
          kind := "MATERIALIZED VIEW", is_dynamic := "N", is_iceberg := "N" }).type
      = SnowflakeRelationType.External ∧
    get_relation_type
        (pyLower (pyUpper (relationTypeValue SnowflakeRelationType.Table)))
      = some SnowflakeRelationType.Table :=
  ⟨(unknown_relation_kind_yields_external
      { database_name := "D", schema_name := "S", name := "T",
        kind := "MATERIALIZED VIEW", is_dynamic := "N", is_iceberg := "N" }).1
      (by decide),
   (unknown_relation_kind_yields_external
      { database_name := "D", schema_name := "S", name := "T",
        kind := "MATERIALIZED VIEW", is_dynamic := "N", is_iceberg := "N" }).2
      SnowflakeRelationType.Table⟩

/-- Claim C5: `_make_match_kwargs` treats each identifier part (database,
schema, identifier) per the Identifier Normalizer contract: a part wrapped in
the quote character on both ends has its quotes stripped with no case
folding; otherwise a part whose quoting is disabled by policy is folded to
upper case; otherwise the part is left unchanged. -/
theorem make_match_kwargs_normalizes_each_part
    (quoting : QuotePolicy) (database schema identifier : Option String) :
    _make_match_kwargs quoting database schema identifier =
      { identifier := normalizePartSpec quoting.identifier identifier
        schema := normalizePartSpec quoting.schema schema
        database := normalizePartSpec quoting.database database } := by
  cases database <;> cases schema <;> cases identifier <;>
    simp [_make_match_kwargs, normalizePartSpec, _is_quoted]

theorem heap_getD_append_self (l : List CatalogIntegrationConfig)
    (c : CatalogIntegrationConfig) :
    (l ++ [c]).getD l.length emptyCatalogIntegrationConfig = c := by
  simp [List.getD]

theorem heap_getD_set_append_self (l : List CatalogIntegrationConfig)
    (c v : CatalogIntegrationConfig) :
    ((l ++ [c]).set l.length v).getD l.length emptyCatalogIntegrationConfig = v := by
  simp [List.getD]

/-- Claim C7: `add_catalog_integration` never mutates the caller's config
object: it deep-copies the descriptor before writing the upper-cased name, so
after the call the object behind the caller's reference is unchanged in every
field, including its name. -/
theorem add_catalog_integration_preserves_caller
    (st : AdapterState) (ref : Nat) (h : ref < st.heap.length) :
    ((add_catalog_integration st ref).1).heap[ref]? = st.heap[ref]? := by
  simp only [add_catalog_integration, deepcopyCfg, setCfgName,
    base_add_catalog_integration, getCfg]
  rw [List.getElem?_set_ne (by omega)]
  rw [List.getElem?_append]
  simp [h]

/-- Concrete instance of `add_catalog_integration_preserves_caller`: after
registering the config at reference 0, the caller's object is untouched. -/
theorem add_catalog_integration_preserves_caller_witness :
    ((add_catalog_integration
        { heap := [{ name := "MyCatalog", default_storage_format := "iceberg" }]
          integrations := [] } 0).1).heap[0]?
      = some { name := "MyCatalog", default_storage_format := "iceberg" } :=
  Eq.trans
    (add_catalog_integration_preserves_caller
      { heap := [{ name := "MyCatalog", default_storage_format := "iceberg" }]
        integrations := [] } 0 (by decide))
    (by decide)

/-- Claim C8: catalog-integration names are normalized by upper-casing at
both registration and lookup time: registering the config behind `ref` and
then looking up any name `m` with the same upper-casing as the config's name
returns the stored copy, whose fields are the original's with the name
upper-cased. -/
theorem catalog_integration_lookup_case_insensitive
    (st : AdapterState) (ref : Nat) (m : String)
    (h : ref < st.heap.length)
    (hm : pyUpper m = pyUpper (getCfg st ref).name) :
    get_catalog_integration (add_catalog_integration st ref).1 m
        = some (add_catalog_integration st ref).2
    ∧ getCfg (add_catalog_integration st ref).1 (add_catalog_integration st ref).2
        = { getCfg st ref with name := pyUpper (getCfg st ref).name } := by
  constructor
  · simp only [add_catalog_integration, deepcopyCfg, setCfgName,
      base_add_catalog_integration, get_catalog_integration,
      base_get_catalog_integration, getCfg]
    rw [heap_getD_append_self, heap_getD_set_append_self]
    simp [List.find?, hm, getCfg]
  · simp only [add_catalog_integration, deepcopyCfg, setCfgName,
      base_add_catalog_integration, getCfg]
    rw [heap_getD_append_self, heap_getD_set_append_self]

/-- Concrete instance of `catalog_integration_lookup_case_insensitive`:
registering `MyCatalog` and looking up `myCatalog` returns the stored copy,
named `MYCATALOG`. -/
theorem catalog_integration_lookup_case_insensitive_witness :
    get_catalog_integration
        (add_catalog_integration
          { heap := [{ name := "MyCatalog", default_storage_format := "iceberg" }]
            integrations := [] } 0).1 "myCatalog"
      = some (add_catalog_integration
          { heap := [{ name := "MyCatalog", default_storage_format := "iceberg" }]
            integrations := [] } 0).2
    ∧ getCfg
        (add_catalog_integration
          { heap := [{ name := "MyCatalog", default_storage_format := "iceberg" }]
            integrations := [] } 0).1
        (add_catalog_integration
          { heap := [{ name := "MyCatalog", default_storage_format := "iceberg" }]
            integrations := [] } 0).2
      = { name := pyUpper "MyCatalog", default_storage_format := "iceberg" } :=
  catalog_integration_lookup_case_insensitive
    { heap := [{ name := "MyCatalog", default_storage_format := "iceberg" }]
      integrations := [] } 0 "myCatalog" (by decide) (by decide)

/-- Claim C9: `build_catalog_relation` returns `none` when the model declares
no catalog name, independently of the registry; when a (non-empty) catalog
name is declared it looks the integration up — failing with the registry's
not-found error when absent — and returns the relation that integration
builds from the model configuration. -/
theorem build_catalog_relation_resolution
    (st : AdapterState) (model : ModelRelationConfig) :
    (catalog_name model = none → build_catalog_relation st model = .ok none) ∧
    (∀ c : String, catalog_name model = some c → c ≠ "" →
      (∀ ref : Nat, get_catalog_integration st c = some ref →
        build_catalog_relation st model
          = .ok (some (build_relation (getCfg st ref) model))) ∧
      (get_catalog_integration st c = none →
        build_catalog_relation st model = .error c)) := by
  constructor
  · intro h
    simp [build_catalog_relation, h]
  · intro c hc hne
    constructor
    · intro ref href
      simp [build_catalog_relation, hc, hne, href]
    · intro hnone
      simp [build_catalog_relation, hc, hne, hnone]

/-- Concrete instance of `build_catalog_relation_resolution`: no declared
catalog yields `none`; a declared catalog resolves through the registry or
fails with the missing name. -/
theorem build_catalog_relation_resolution_witness :
    build_catalog_relation
        { heap := [{ name := "GLUE", default_storage_format := "iceberg" }]
          integrations := [("GLUE", 0)] }
        { catalog := none, payload := "model-config" }
      = .ok none
    ∧ build_catalog_relation
        { heap := [{ name := "GLUE", default_storage_format := "iceberg" }]
          integrations := [("GLUE", 0)] }
        { catalog := some "glue", payload := "model-config" }
      = .ok (some (build_relation
          (getCfg { heap := [{ name := "GLUE", default_storage_format := "iceberg" }]
                    integrations := [("GLUE", 0)] } 0)
          { catalog := some "glue", payload := "model-config" }))
    ∧ build_catalog_relation
        { heap := [{ name := "GLUE", default_storage_format := "iceberg" }]
          integrations := [("GLUE", 0)] }
        { catalog := some "missing", payload := "model-config" }
      = .error "missing" :=
  ⟨(build_catalog_relation_resolution
      { heap := [{ name := "GLUE", default_storage_format := "iceberg" }]
        integrations := [("GLUE", 0)] }
      { catalog := none, payload := "model-config" }).1 rfl,
   ((build_catalog_relation_resolution
      { heap := [{ name := "GLUE", default_storage_format := "iceberg" }]
        integrations := [("GLUE", 0)] }
      { catalog := some "glue", payload := "model-config" }).2 "glue" rfl
      (by decide)).1 0 (by decide),
   ((build_catalog_relation_resolution
      { heap := [{ name := "GLUE", default_storage_format := "iceberg" }]
        integrations := [("GLUE", 0)] }
      { catalog := some "missing", payload := "model-config" }).2 "missing" rfl
      (by decide)).2 (by decide)⟩

theorem head_dropWhile_not (p : Char → Bool) :
    ∀ (l : List Char) (x : Char), (l.dropWhile p).head? = some x → p x = false := by
  intro l
  induction l with
  | nil => intro x h; simp [List.dropWhile] at h
  | cons a t ih =>
      intro x h
      by_cases hp : p a = true
      · exact ih x (by simpa [List.dropWhile, hp] using h)
      · simp only [List.dropWhile, hp] at h
        simp only [Bool.not_eq_true] at hp
        cases h
        simpa using hp

theorem strip_quotes_decomposition (s : String) :
    ∃ a b, s.data = List.replicate a quote_character ++ (_strip_quotes s).data
        ++ List.replicate b quote_character
      ∧ (_strip_quotes s).data.head? ≠ some quote_character
      ∧ (_strip_quotes s).data.getLast? ≠ some quote_character := by
  have hq : ∀ (l : List Char) (x : Char),
      x ∈ l.takeWhile (fun c => c == quote_character) → x = quote_character := by
    intro l x hx
    simpa using List.mem_takeWhile_imp hx
  set p : Char → Bool := fun c => c == quote_character with hp
  set t := s.data.dropWhile p with ht
  have hsplit : s.data.takeWhile p ++ t = s.data :=
    List.takeWhile_append_dropWhile p s.data
  have htake : s.data.takeWhile p
      = List.replicate (s.data.takeWhile p).length quote_character :=
    List.eq_replicate_of_mem (hq s.data)
  have hsplit2 : t.reverse.takeWhile p ++ t.reverse.dropWhile p = t.reverse :=
    List.takeWhile_append_dropWhile p t.reverse
  have htake2 : t.reverse.takeWhile p
      = List.replicate (t.reverse.takeWhile p).length quote_character :=
    List.eq_replicate_of_mem (hq t.reverse)
  have hr : (_strip_quotes s).data = (t.reverse.dropWhile p).reverse := rfl
  have ht2 : t = (t.reverse.dropWhile p).reverse
      ++ List.replicate (t.reverse.takeWhile p).length quote_character := by
    calc t = t.reverse.reverse := (List.reverse_reverse t).symm
    _ = (t.reverse.takeWhile p ++ t.reverse.dropWhile p).reverse := by rw [hsplit2]
    _ = (t.reverse.dropWhile p).reverse ++ (t.reverse.takeWhile p).reverse := by
          rw [List.reverse_append]
    _ = (t.reverse.dropWhile p).reverse
          ++ List.replicate (t.reverse.takeWhile p).length quote_character := by
          rw [htake2, List.reverse_replicate]
          simp
  refine ⟨(s.data.takeWhile p).length, (t.reverse.takeWhile p).length, ?_, ?_, ?_⟩
  · rw [hr]
    calc s.data = s.data.takeWhile p ++ t := hsplit.symm
    _ = List.replicate (s.data.takeWhile p).length quote_character ++ t := by
        conv_lhs => rw [htake]
    _ = List.replicate (s.data.takeWhile p).length quote_character
          ++ ((t.reverse.dropWhile p).reverse
              ++ List.replicate (t.reverse.takeWhile p).length quote_character) := by
        conv_lhs => rw [ht2]
    _ = List.replicate (s.data.takeWhile p).length quote_character
          ++ (t.reverse.dropWhile p).reverse
          ++ List.replicate (t.reverse.takeWhile p).length quote_character := by
        rw [List.append_assoc]
  · rcases hc : (_strip_quotes s).data with _ | ⟨c, cs⟩
    · simp
    · have hhead : t.head? = some c := by
        rw [ht2, ← hr, hc]
        rfl
      have hpc : p c = false := by
        apply head_dropWhile_not p s.data
        rw [← ht]
        exact hhead
      simp only [List.head?_cons, ne_eq, Option.some.injEq]
      intro hce
      rw [hce, hp] at hpc
      simp at hpc
  · rw [hr, List.getLast?_reverse]
    rcases hh : (t.reverse.dropWhile p).head? with _ | c
    · simp
    · have hpc := head_dropWhile_not p t.reverse c hh
      simp only [ne_eq, Option.some.injEq]
      intro hce
      rw [hce, hp] at hpc
      simp at hpc

/-- Claim C10: quote stripping in `_make_match_kwargs` removes every leading
and every trailing occurrence of the quote character, not just one matching
pair: a quoted identifier part normalizes to its interior with no quote
character left at either end (so `""X""` normalizes to `X`), and the
one-character string consisting of the quote character alone counts as quoted
and normalizes to the empty string. -/
theorem make_match_kwargs_strips_all_quotes :
    (∀ (quoting : QuotePolicy) (db sch : Option String) (s : String),
      _is_quoted (some s) = true →
      ∃ r a b,
        (_make_match_kwargs quoting db sch (some s)).identifier = some r ∧
        s.data = List.replicate a quote_character ++ r.data
          ++ List.replicate b quote_character ∧
        r.data.head? ≠ some quote_character ∧
        r.data.getLast? ≠ some quote_character) ∧
    (∀ (quoting : QuotePolicy) (db sch : Option String),
      (_make_match_kwargs quoting db sch (some "\"\"X\"\"")).identifier = some "X") ∧
    (_is_quoted (some "\"") = true ∧
      ∀ (quoting : QuotePolicy) (db sch : Option String),
        (_make_match_kwargs quoting db sch (some "\"")).identifier = some "") := by
  refine ⟨?_, ?_, by decide, ?_⟩
  · intro quoting db sch s h
    obtain ⟨a, b, hdecomp, hhead, hlast⟩ := strip_quotes_decomposition s
    refine ⟨_strip_quotes s, a, b, ?_, hdecomp, hhead, hlast⟩
    simp [_make_match_kwargs, h]
  · intro quoting db sch
    have h : _is_quoted (some "\"\"X\"\"") = true := by decide
    simp only [_make_match_kwargs, h, if_true, Option.map]
    decide
  · intro quoting db sch
    have h : _is_quoted (some "\"") = true := by decide
    simp only [_make_match_kwargs, h, if_true, Option.map]
    decide

/-- Concrete instance of `make_match_kwargs_strips_all_quotes`: the doubly
quoted identifier `""X""` is decomposed into quote runs around a core with no
quote character at either end. -/
theorem make_match_kwargs_strips_all_quotes_witness :
    ∃ r a b,
      (_make_match_kwargs { database := true, schema := true, identifier := true }
          none none (some "\"\"X\"\"")).identifier = some r ∧
      ("\"\"X\"\"" : String).data = List.replicate a quote_character ++ r.data
        ++ List.replicate b quote_character ∧
      r.data.head? ≠ some quote_character ∧
      r.data.getLast? ≠ some quote_character :=
  make_match_kwargs_strips_all_quotes.1
    { database := true, schema := true, identifier := true } none none
    "\"\"X\"\"" (by decide)

/-- Claim C1: under the `Fail` policy, whenever `added` or `removed` is
non-empty the reconciliation aborts before issuing any structural operation,
reporting a drift error whose message contains the phrase the functional test
keys on, and the stored column set is left unchanged; when both are empty it
is a no-op with no error. -/
theorem fail_policy_aborts_and_preserves (existing incoming : List Column) :
    (((diffColumns existing incoming).added ≠ [] ∨
        (diffColumns existing incoming).removed ≠ []) →
      ∃ msg, (reconcile existing incoming .Fail).2 = .driftError msg
        ∧ containsSubstr msg outOfSyncPhrase = true
        ∧ applyOutcome existing (reconcile existing incoming .Fail).2 = existing) ∧
    ((diffColumns existing incoming).added = [] ∧
        (diffColumns existing incoming).removed = [] →
      (reconcile existing incoming .Fail).2 = .ops []
        ∧ applyOutcome existing (reconcile existing incoming .Fail).2 = existing) := by
  constructor
  · intro h
    have hcond : ((diffColumns existing incoming).added.isEmpty &&
        (diffColumns existing incoming).removed.isEmpty) = false := by
      rcases h with h | h <;> simp [List.isEmpty_iff, h]
    refine ⟨outOfSyncMessage (diffColumns existing incoming), ?_, ?_, ?_⟩
    · simp [reconcile, hcond]
    · exact containsSubstr_append_left outOfSyncPhrase _
    · simp [reconcile, hcond, applyOutcome]
  · rintro ⟨h1, h2⟩
    have hcond : ((diffColumns existing incoming).added.isEmpty &&
        (diffColumns existing incoming).removed.isEmpty) = true := by
      simp [List.isEmpty_iff, h1, h2]
    constructor
    · simp [reconcile, hcond]
    · simp [reconcile, hcond, applyOutcome, applyStructuralOps]

/-- Concrete instance of `fail_policy_aborts_and_preserves`: the test
scenario of existing `[id, name]` and incoming `[id, name, updated_at]`
under `Fail` raises the drift error and keeps the stored columns. -/
theorem fail_policy_aborts_and_preserves_witness :
    ∃ msg,
      (reconcile
          [{ name := "id", dataType := "integer" },
            { name := "name", dataType := "string" }]
          [{ name := "id", dataType := "integer" },
            { name := "name", dataType := "string" },
            { name := "updated_at", dataType := "date" }]
          SchemaChangePolicy.Fail).2 = .driftError msg
      ∧ containsSubstr msg outOfSyncPhrase = true
      ∧ applyOutcome
          [{ name := "id", dataType := "integer" },
            { name := "name", dataType := "string" }]
          (reconcile
            [{ name := "id", dataType := "integer" },
              { name := "name", dataType := "string" }]
            [{ name := "id", dataType := "integer" },
              { name := "name", dataType := "string" },
              { name := "updated_at", dataType := "date" }]
            SchemaChangePolicy.Fail).2
        = [{ name := "id", dataType := "integer" },
            { name := "name", dataType := "string" }] :=
  (fail_policy_aborts_and_preserves
      [{ name := "id", dataType := "integer" },
        { name := "name", dataType := "string" }]
      [{ name := "id", dataType := "integer" },
        { name := "name", dataType := "string" },
        { name := "updated_at", dataType := "date" }]).1
    (Or.inl (by decide))

theorem applyStructuralOps_append (cols : List Column) (a b : List StructuralOp) :
    applyStructuralOps cols (a ++ b) = applyStructuralOps (applyStructuralOps cols a) b := by
  simp [applyStructuralOps, List.foldl_append]

theorem applyStructuralOps_addColumns (cols : List Column) (l : List Column) :
    applyStructuralOps cols (l.map StructuralOp.addColumn) = cols ++ l := by
  induction l generalizing cols with
  | nil => simp [applyStructuralOps]
  | cons c t ih =>
      show applyStructuralOps (cols ++ [c]) (t.map StructuralOp.addColumn) = cols ++ c :: t
      rw [ih]
      simp

theorem hasColumnNamed_filter (q : String → Bool) (l : List Column) (n : String) :
    hasColumnNamed (l.filter (fun c => q c.name)) n = (hasColumnNamed l n && q n) := by
  induction l with
  | nil => simp [hasColumnNamed]
  | cons c t ih =>
      rw [List.filter_cons]
      by_cases hq : q c.name = true
      · rw [if_pos hq]
        show ((c.name == n) || (List.filter (fun c => q c.name) t).any
            (fun c => c.name == n)) = _
        rw [show (List.filter (fun c => q c.name) t).any (fun c => c.name == n)
            = (t.any (fun c => c.name == n) && q n) from ih]
        by_cases hc : c.name = n
        · subst hc
          simp [hasColumnNamed, hq]
        · have hb : (c.name == n) = false := by simp [beq_iff_eq, hc]
          simp [hasColumnNamed, hb]
      · rw [if_neg (by simp [hq])]
        show (List.filter (fun c => q c.name) t).any (fun c => c.name == n) = _
        rw [show (List.filter (fun c => q c.name) t).any (fun c => c.name == n)
            = (t.any (fun c => c.name == n) && q n) from ih]
        simp only [Bool.not_eq_true] at hq
        by_cases hc : c.name = n
        · subst hc
          simp [hasColumnNamed, hq]
        · have hb : (c.name == n) = false := by simp [beq_iff_eq, hc]
          simp [hasColumnNamed, hb]

theorem hasColumnNamed_append (a b : List Column) (n : String) :
    hasColumnNamed (a ++ b) n = (hasColumnNamed a n || hasColumnNamed b n) := by
  simp [hasColumnNamed, List.any_append]

theorem hasColumnNamed_dropColumns (l : List Column) (cols : List Column) (n : String) :
    hasColumnNamed (applyStructuralOps cols (l.map (fun c => StructuralOp.dropColumn c.name))) n
      = (hasColumnNamed cols n && !(hasColumnNamed l n)) := by
  induction l generalizing cols with
  | nil => simp [applyStructuralOps, hasColumnNamed]
  | cons r t ih =>
      show hasColumnNamed
          (applyStructuralOps (cols.filter (fun c => !(c.name == r.name)))
            (t.map (fun c => StructuralOp.dropColumn c.name))) n
        = (hasColumnNamed cols n && !(hasColumnNamed (r :: t) n))
      rw [ih, hasColumnNamed_filter (fun s => !(s == r.name))]
      by_cases hr : r.name = n
      · subst hr
        simp [hasColumnNamed]
      · have h1 : (n == r.name) = false := by
          simp [beq_iff_eq]
          intro hcontr
          exact hr hcontr.symm
        have h2 : (r.name == n) = false := by simp [beq_iff_eq, hr]
        simp [hasColumnNamed, h1, h2, Bool.and_assoc]

/-- Claim C2: under `SyncAllColumns`, applying the returned structural
operations in order (all additions first, then all drops) makes the stored
column set equal exactly the incoming column set, for every pair of existing
and incoming column lists; and any column name that requires quoting
(reserved word or special character such as a hyphen) is emitted quoted. -/
theorem sync_all_columns_convergence (existing incoming : List Column) (n : String) :
    hasColumnNamed
        (applyOutcome existing (reconcile existing incoming .SyncAllColumns).2) n
      = hasColumnNamed incoming n
    ∧ (needsQuoting n = true → renderColumnIdentifier n = "\"" ++ n ++ "\"") := by
  constructor
  · have h1 : applyOutcome existing (reconcile existing incoming .SyncAllColumns).2
        = applyStructuralOps (existing ++ (diffColumns existing incoming).added)
            ((diffColumns existing incoming).removed.map
              (fun c => StructuralOp.dropColumn c.name)) := by
      simp only [reconcile, applyOutcome]
      rw [applyStructuralOps_append, applyStructuralOps_addColumns]
    rw [h1, hasColumnNamed_dropColumns, hasColumnNamed_append]
    have ha : hasColumnNamed (diffColumns existing incoming).added n
        = (hasColumnNamed incoming n && !(hasColumnNamed existing n)) := by
      exact hasColumnNamed_filter (fun s => !(hasColumnNamed existing s)) incoming n
    have hr : hasColumnNamed (diffColumns existing incoming).removed n
        = (hasColumnNamed existing n && !(hasColumnNamed incoming n)) := by
      exact hasColumnNamed_filter (fun s => !(hasColumnNamed incoming s)) existing n
    rw [ha, hr]
    have hbool : ∀ E I : Bool, ((E || (I && !E)) && !(E && !I)) = I := by decide
    exact hbool (hasColumnNamed existing n) (hasColumnNamed incoming n)
  · intro h
    simp [renderColumnIdentifier, h]

/-- Concrete instance of `sync_all_columns_convergence`: the special-chars
test scenario — existing `[id, select]`, incoming
`[id, select, field-with-dash]` — converges on `field-with-dash`, which
renders quoted. -/
theorem sync_all_columns_convergence_witness :
    hasColumnNamed
        (applyOutcome
          [{ name := "id", dataType := "int" },
            { name := "select", dataType := "string" }]
          (reconcile
            [{ name := "id", dataType := "int" },
              { name := "select", dataType := "string" }]
            [{ name := "id", dataType := "int" },
              { name := "select", dataType := "string" },
              { name := "field-with-dash", dataType := "string" }]
            SchemaChangePolicy.SyncAllColumns).2) "field-with-dash"
      = hasColumnNamed
          [{ name := "id", dataType := "int" },
            { name := "select", dataType := "string" },
            { name := "field-with-dash", dataType := "string" }] "field-with-dash"
    ∧ renderColumnIdentifier "field-with-dash" = "\"" ++ "field-with-dash" ++ "\"" :=
  ⟨(sync_all_columns_convergence
      [{ name := "id", dataType := "int" },
        { name := "select", dataType := "string" }]
      [{ name := "id", dataType := "int" },
        { name := "select", dataType := "string" },
        { name := "field-with-dash", dataType := "string" }] "field-with-dash").1,
   (sync_all_columns_convergence
      [{ name := "id", dataType := "int" },
        { name := "select", dataType := "string" }]
      [{ name := "id", dataType := "int" },
        { name := "select", dataType := "string" },
        { name := "field-with-dash", dataType := "string" }] "field-with-dash").2
      (by decide)⟩

/-- Concrete instance of `dynamic_table_override_conditions`: a `VIEW` row
with is-dynamic flag `"N"` keeps the kind its type string resolves to. -/
theorem dynamic_table_override_conditions_witness :
    (_parse_list_relations_result
        { database_name := "D", schema_name := "S", name := "V",
          kind := "VIEW", is_dynamic := "N", is_iceberg := "N" }).type
      = (get_relation_type (pyLower "VIEW")).getD SnowflakeRelationType.External :=
  (dynamic_table_override_conditions.1
      { database_name := "D", schema_name := "S", name := "V",
        kind := "VIEW", is_dynamic := "N", is_iceberg := "N" }).2 (by decide)
